import Mathlib

/-!
Shallow embedding of `main.go` of the `bitmap` repository.

The Go program is modelled as pure Lean functions: files are byte lists
(`List Nat`, each entry one byte), Go `int` is `Int`, fallible Go functions
return `Except String`.  Every definition below is translated from the Go
source; doc comments cite the function embedded.
-/

namespace Bitmap

/-- `Pixel` from main.go: three 8-bit channels, blue-green-red order. -/
structure Pixel where
  blue : Nat
  green : Nat
  red : Nat
deriving DecidableEq, Repr

/-- The command-line `Option` struct from main.go (name and raw value).
Named `Opt` here only because `Option` would shadow the Lean core type. -/
structure Opt where
  name : String
  value : String
deriving DecidableEq, Repr

/-- `BMPHeader` from main.go: file type (2 bytes, kept as a byte list),
file size, one 4-byte reserved field, offset to image data. -/
structure BMPHeader where
  fileType : List Nat
  fileSize : Nat
  reserved : Nat
  offsetData : Nat
deriving DecidableEq, Repr

/-- `DIBHeader` from main.go (40 bytes); `Width`, `Height` and the two
resolution fields are signed 32-bit in Go, hence `Int` here. -/
structure DIBHeader where
  dibHeaderSize : Nat
  width : Int
  height : Int
  planes : Nat
  bitCount : Nat
  compression : Nat
  imageSize : Nat
  xPixelsPerM : Int
  yPixelsPerM : Int
  colorsUsed : Nat
  colorsImp : Nat
deriving DecidableEq, Repr

/-- Little-endian 16-bit read at byte offset `off` (out-of-range bytes read
as 0; all uses are guarded by length checks, matching `binary.Read`). -/
def le16 (bs : List Nat) (off : Nat) : Nat :=
  bs.getD off 0 + 256 * bs.getD (off + 1) 0

/-- Little-endian 32-bit read at byte offset `off`. -/
def le32 (bs : List Nat) (off : Nat) : Nat :=
  le16 bs off + 65536 * le16 bs (off + 2)

/-- Reinterpret an unsigned 32-bit value as Go's signed `int32`. -/
def toInt32 (n : Nat) : Int :=
  if n < 2147483648 then (n : Int) else (n : Int) - 4294967296

/-- Boolean success test for `Except`. -/
def isOk : Except String α → Bool
  | Except.ok _ => true
  | Except.error _ => false

/-- `readHeaders` from main.go, with the named file given as its byte
contents.  `binary.Read` of the 14-byte `BMPHeader` fails when fewer than
14 bytes are available; then the magic is compared with "BM" (bytes 66,77);
then `binary.Read` of the 40-byte `DIBHeader` fails when fewer than 54
bytes are available in total.  All multi-byte fields are little-endian.
The Go code performs no further validation of the parsed fields. -/
def readHeaders (bs : List Nat) : Except String (BMPHeader × DIBHeader) :=
  if bs.length < 14 then
    Except.error "error reading BMP header"
  else
    let bmp : BMPHeader := ⟨bs.take 2, le32 bs 2, le32 bs 6, le32 bs 10⟩
    if bmp.fileType ≠ [66, 77] then
      Except.error "error: not a valid BMP file"
    else if bs.length < 54 then
      Except.error "error reading DIB header"
    else
      let dib : DIBHeader :=
        ⟨le32 bs 14, toInt32 (le32 bs 18), toInt32 (le32 bs 22),
         le16 bs 26, le16 bs 28, le32 bs 30, le32 bs 34,
         toInt32 (le32 bs 38), toInt32 (le32 bs 42), le32 bs 46, le32 bs 50⟩
      Except.ok (bmp, dib)

/-- `readPixels` from main.go, with the named file given as its byte
contents.  The Go body is `return nil, nil`: it reads nothing from the file
and returns a nil pixel slice (modelled as `[]`) with a nil error. -/
def readPixels (bmpHeader : BMPHeader) (dibHeader : DIBHeader)
    (fileBytes : List Nat) : Except String (List Pixel) :=
  Except.ok []

/-- `writePixels` from main.go, modelled as returning the byte sequence it
writes to the output file.  The Go body is `return nil`: it opens nothing,
writes no bytes, and returns a nil error — modelled as `Except.ok []`. -/
def writePixels (bmpHeader : BMPHeader) (dibHeader : DIBHeader)
    (pixels : List Pixel) : Except String (List Nat) :=
  Except.ok []

/-- `applyMirror` from main.go.  The Go body is `return pixels`. -/
def applyMirror (pixels : List Pixel) (width height : Int)
    (mode : String) : List Pixel :=
  pixels

/-- `applyFilter` from main.go.  The Go body is `return pixels`. -/
def applyFilter (pixels : List Pixel) (width height : Int)
    (filterType : String) : List Pixel :=
  pixels

/-- `applyRotate` from main.go.  The Go body is `return pixels`. -/
def applyRotate (pixels : List Pixel) (width height : Int)
    (angle : Int) : List Pixel :=
  pixels

/-- `applyCrop` from main.go.  The Go body is `return pixels`. -/
def applyCrop (pixels : List Pixel)
    (width height offsetX offsetY cropWidth cropHeight : Int) : List Pixel :=
  pixels

/-- `strings.SplitN(s, "=", 2)`: `none` when `s` contains no `=`
(Go's `len(parts) != 2`), otherwise the part before the first `=` and
everything after it. -/
def splitEq (s : String) : Option (String × String) :=
  match s.splitOn "=" with
  | [_] => none
  | p :: rest => some (p, String.intercalate "=" rest)
  | [] => none

/-- The option loop of `parseArgs` (main.go lines 74-88): each argument
must start with `--` and contain `=`; the first offender aborts with the
error the Go code produces; accepted options keep their order. -/
def parseOpts : List String → Except String (List Opt)
  | [] => Except.ok []
  | a :: rest =>
    if a.startsWith "--" then
      match splitEq a with
      | some (n, v) => (parseOpts rest).map (fun os => ⟨n, v⟩ :: os)
      | none => Except.error ("invalid option format: " ++ a)
    else
      Except.error ("unexpected argument: " ++ a)

/-- `parseArgs` from main.go: `args` is `os.Args[1:]`.  `header` takes
exactly one further argument; `apply` requires at least 4 arguments (the
last two are source and output file names, the ones in between are parsed
as options); any other command is rejected. -/
def parseArgs (args : List String) :
    Except String (String × String × String × List Opt) :=
  if args.length < 2 then
    Except.error "invalid number of arguments"
  else
    let command := args.getD 0 ""
    if command = "header" then
      if args.length ≠ 2 then
        Except.error "usage: ./bitmap header <bmp_file>"
      else
        Except.ok (command, args.getD 1 "", "", [])
    else if command = "apply" then
      if args.length < 4 then
        Except.error "usage: ./bitmap apply [options] <source_file> <output_file>"
      else
        match parseOpts ((args.drop 1).take (args.length - 3)) with
        | Except.error e => Except.error e
        | Except.ok opts =>
          Except.ok (command, args.getD (args.length - 2) "",
                     args.getD (args.length - 1) "", opts)
    else
      Except.error ("unknown command: " ++ command)

/-- One iteration of the option loop in `main` (main.go lines 236-249):
dispatch on the option name; the dimensions passed are always the header's
(`int(dibHeader.Width)`, `int(dibHeader.Height)`), the rotate angle is the
constant 0 (`angle := 0`), the crop parameters are the constants
0, 0, 100, 100, and an unmatched name leaves the pixels untouched. -/
def applyStep (w h : Int) (pixels : List Pixel) (opt : Opt) : List Pixel :=
  if opt.name = "--mirror" then applyMirror pixels w h opt.value
  else if opt.name = "--filter" then applyFilter pixels w h opt.value
  else if opt.name = "--rotate" then applyRotate pixels w h 0
  else if opt.name = "--crop" then applyCrop pixels w h 0 0 100 100
  else pixels

/-- The full option loop of `main`: folds `applyStep` over the ordered
options; `w`, `h` come from the DIB header and are never updated. -/
def applyPipeline (w h : Int) (opts : List Opt) (pixels : List Pixel) :
    List Pixel :=
  match opts with
  | [] => pixels
  | o :: rest => applyPipeline w h rest (applyStep w h pixels o)

/-- A transform invocation as issued by `main`'s option loop, with the
exact argument values the code passes. -/
inductive Call where
  | mirror (width height : Int) (mode : String)
  | filter (width height : Int) (filterType : String)
  | rotate (width height : Int) (angle : Int)
  | crop (width height offsetX offsetY cropWidth cropHeight : Int)
deriving DecidableEq, Repr

/-- The invocation (if any) issued by one iteration of `main`'s option
loop, recording the literal arguments of the corresponding call in the
source: original header dimensions, `applyRotate ... 0`,
`applyCrop ... 0, 0, 100, 100`; unmatched names issue no call. -/
def stepCalls (w h : Int) (opt : Opt) : List Call :=
  if opt.name = "--mirror" then [Call.mirror w h opt.value]
  else if opt.name = "--filter" then [Call.filter w h opt.value]
  else if opt.name = "--rotate" then [Call.rotate w h 0]
  else if opt.name = "--crop" then [Call.crop w h 0 0 100 100]
  else []

/-- The sequence of transform invocations `main`'s option loop issues for
an ordered option list. -/
def pipelineCalls (w h : Int) (opts : List Opt) : List Call :=
  (opts.map (stepCalls w h)).flatten

/-- `writePixels` followed by `readPixels` on the bytes written: the
encode-then-decode round trip of the claimed codec. -/
def encodeDecode (bh : BMPHeader) (dh : DIBHeader) (ps : List Pixel) :
    Except String (List Pixel) :=
  match writePixels bh dh ps with
  | Except.ok bytes => readPixels bh dh bytes
  | Except.error e => Except.error e

/-- A well-formed 54-byte header block: magic "BM", file size 58,
pixel-data offset 54, DIB size 40, width 1, height 1, planes 1,
24 bits per pixel, compression 0, image size 4. -/
def good54 : List Nat :=
  [66, 77, 58, 0, 0, 0, 0, 0, 0, 0, 54, 0, 0, 0,
   40, 0, 0, 0, 1, 0, 0, 0, 1, 0, 0, 0, 1, 0, 24, 0,
   0, 0, 0, 0, 4, 0, 0, 0, 0, 0, 0, 0, 0, 0, 0, 0,
   0, 0, 0, 0, 0, 0, 0, 0]

/-- The `BMPHeader` value `readHeaders` parses from `good54`. -/
def hGood : BMPHeader := ⟨[66, 77], 58, 0, 54⟩

/-- The `DIBHeader` value `readHeaders` parses from `good54`. -/
def dGood : DIBHeader := ⟨40, 1, 1, 1, 24, 0, 4, 0, 0, 0, 0⟩

/-- 54 bytes whose magic is "BM" and whose every other byte is zero, so
the DIB-header size is 0 (not 40), bits-per-pixel is 0 (not 24) and
planes is 0 (not 1). -/
def bmZeros54 : List Nat :=
  [66, 77] ++ List.replicate 52 0

end Bitmap

namespace Bitmap

/-- C1: the spec claims decoding the bytes produced by encoding a buffer
with positive dimensions reproduces the buffer.  Evaluating the code at a
1×1 buffer holding one pixel: `writePixels` writes nothing and
`readPixels` returns the nil slice, so the round trip yields `[]`, not
the original one-pixel buffer. -/
theorem C1_roundtrip_empty :
    encodeDecode hGood dGood [⟨1, 2, 3⟩] = Except.ok ([] : List Pixel) ∧
    ([⟨1, 2, 3⟩] : List Pixel) ≠ ([] : List Pixel) :=
  ⟨rfl, by decide⟩

/-- C2 counterexample: `bmZeros54` has 54 bytes and magic "BM" but
DIB-header size 0 ≠ 40, bits-per-pixel 0 ≠ 24 and planes 0 ≠ 1, so the
claim requires `readHeaders` to fail on it; the code accepts it. -/
theorem C2_claim_counterexample :
    isOk (readHeaders bmZeros54) = true ∧
    le32 bmZeros54 14 ≠ 40 ∧ le16 bmZeros54 28 ≠ 24 ∧
    le32 bmZeros54 30 = 0 ∧ le16 bmZeros54 26 ≠ 1 := by
  decide

/-- Unfolded form of `readHeaders` (the `let`s reduced), used to case on
its three guards. -/
theorem readHeaders_eq (bs : List Nat) :
    readHeaders bs =
      if bs.length < 14 then Except.error "error reading BMP header"
      else if bs.take 2 ≠ [66, 77] then
        Except.error "error: not a valid BMP file"
      else if bs.length < 54 then Except.error "error reading DIB header"
      else Except.ok
        (⟨bs.take 2, le32 bs 2, le32 bs 6, le32 bs 10⟩,
         ⟨le32 bs 14, toInt32 (le32 bs 18), toInt32 (le32 bs 22),
          le16 bs 26, le16 bs 28, le32 bs 30, le32 bs 34,
          toInt32 (le32 bs 38), toInt32 (le32 bs 42), le32 bs 46,
          le32 bs 50⟩) :=
  rfl

/-- C2 amended: `readHeaders` succeeds exactly when the input has at least
54 bytes and its first two bytes are "BM" (66, 77); it validates nothing
else, and on success every multi-byte field of both headers is the
little-endian value of the corresponding source bytes. -/
theorem C2_readHeaders_amended (bs : List Nat) :
    (isOk (readHeaders bs) = true ↔ 54 ≤ bs.length ∧ bs.take 2 = [66, 77]) ∧
    (∀ ph pd, readHeaders bs = Except.ok (ph, pd) →
      ph.fileType = bs.take 2 ∧ ph.fileSize = le32 bs 2 ∧
      ph.reserved = le32 bs 6 ∧ ph.offsetData = le32 bs 10 ∧
      pd.dibHeaderSize = le32 bs 14 ∧ pd.width = toInt32 (le32 bs 18) ∧
      pd.height = toInt32 (le32 bs 22) ∧ pd.planes = le16 bs 26 ∧
      pd.bitCount = le16 bs 28 ∧ pd.compression = le32 bs 30 ∧
      pd.imageSize = le32 bs 34 ∧ pd.xPixelsPerM = toInt32 (le32 bs 38) ∧
      pd.yPixelsPerM = toInt32 (le32 bs 42) ∧ pd.colorsUsed = le32 bs 46 ∧
      pd.colorsImp = le32 bs 50) := by
  constructor
  · rw [readHeaders_eq]
    split_ifs with h14 hbm h54
    · simp only [isOk, Bool.false_eq_true, false_iff]
      rintro ⟨h, -⟩
      omega
    · simp only [isOk, Bool.false_eq_true, false_iff]
      rintro ⟨-, h⟩
      exact hbm h
    · simp only [isOk, Bool.false_eq_true, false_iff]
      rintro ⟨h, -⟩
      omega
    · simp only [isOk]
      constructor
      · intro _
        exact ⟨by omega, not_not.mp hbm⟩
      · intro _
        trivial
  · intro ph pd hok
    rw [readHeaders_eq] at hok
    split_ifs at hok with h14 hbm h54
    simp only [Except.ok.injEq, Prod.mk.injEq] at hok
    obtain ⟨h1, h2⟩ := hok
    subst h1
    subst h2
    exact ⟨rfl, rfl, rfl, rfl, rfl, rfl, rfl, rfl, rfl, rfl, rfl,
      rfl, rfl, rfl, rfl⟩

/-- C2 witness: instantiating the amended theorem at the concrete
well-formed header block `good54`. -/
theorem C2_readHeaders_amended_witness :
    hGood.fileSize = le32 good54 2 ∧ hGood.offsetData = le32 good54 10 ∧
    dGood.bitCount = le16 good54 28 ∧ dGood.planes = le16 good54 26 ∧
    dGood.width = toInt32 (le32 good54 18) := by
  have h := (C2_readHeaders_amended good54).2 hGood dGood (by rfl)
  exact ⟨h.2.1, h.2.2.2.1, h.2.2.2.2.2.2.2.2.1, h.2.2.2.2.2.2.2.1,
    h.2.2.2.2.2.1⟩

/-- C3: the spec claims each option's transform is applied with that
option's argument value, threading output dimensions forward.  Evaluating
`main`'s loop: `--rotate=90` issues a call with the constant angle 0, and
after a `--crop` the following `--mirror` still receives the original
header dimensions (the crop arguments themselves are the constants
0, 0, 100, 100). -/
theorem C3_pipeline_ignores_arguments :
    pipelineCalls 4 2 [⟨"--rotate", "90"⟩] = [Call.rotate 4 2 0] ∧
    pipelineCalls 200 200 [⟨"--crop", "0-0-50-50"⟩, ⟨"--mirror", "horizontal"⟩]
      = [Call.crop 200 200 0 0 100 100, Call.mirror 200 200 "horizontal"] :=
  ⟨rfl, rfl⟩

/-- C4: the spec claims cropping a 2×2 buffer to 1×1 at offset (0,0)
yields a 1×1 buffer.  Evaluating the code: `applyCrop` returns its input
slice unchanged, still 4 pixels, and its return type admits no failure. -/
theorem C4_crop_identity :
    applyCrop [⟨0, 0, 0⟩, ⟨1, 1, 1⟩, ⟨2, 2, 2⟩, ⟨3, 3, 3⟩] 2 2 0 0 1 1
      = [⟨0, 0, 0⟩, ⟨1, 1, 1⟩, ⟨2, 2, 2⟩, ⟨3, 3, 3⟩] ∧
    (applyCrop [⟨0, 0, 0⟩, ⟨1, 1, 1⟩, ⟨2, 2, 2⟩, ⟨3, 3, 3⟩] 2 2 0 0 1 1).length
      = 4 :=
  ⟨rfl, rfl⟩

/-- C5: the spec claims rotating a 4×2 buffer clockwise by 90 yields a
2×4 buffer whose first pixel is the input pixel at row 1, column 0 (here
the pixel with all channels 4).  Evaluating the code: `applyRotate`
returns the buffer unchanged, so the first pixel is still the input pixel
with all channels 0. -/
theorem C5_rotate_identity :
    applyRotate [⟨0, 0, 0⟩, ⟨1, 1, 1⟩, ⟨2, 2, 2⟩, ⟨3, 3, 3⟩,
                 ⟨4, 4, 4⟩, ⟨5, 5, 5⟩, ⟨6, 6, 6⟩, ⟨7, 7, 7⟩] 4 2 90
      = [⟨0, 0, 0⟩, ⟨1, 1, 1⟩, ⟨2, 2, 2⟩, ⟨3, 3, 3⟩,
         ⟨4, 4, 4⟩, ⟨5, 5, 5⟩, ⟨6, 6, 6⟩, ⟨7, 7, 7⟩] ∧
    (applyRotate [⟨0, 0, 0⟩, ⟨1, 1, 1⟩, ⟨2, 2, 2⟩, ⟨3, 3, 3⟩,
                  ⟨4, 4, 4⟩, ⟨5, 5, 5⟩, ⟨6, 6, 6⟩, ⟨7, 7, 7⟩] 4 2 90).head?
      ≠ some ⟨4, 4, 4⟩ :=
  ⟨rfl, by decide⟩

/-- C6: the spec claims horizontal mirroring reverses each row and an
unknown mode fails with InvalidOption.  Evaluating the code: `applyMirror`
returns the 2×1 row [black, white] unchanged for mode "horizontal", and
returns it unchanged (no failure) for the unknown mode "diagonal". -/
theorem C6_mirror_identity :
    applyMirror [⟨0, 0, 0⟩, ⟨255, 255, 255⟩] 2 1 "horizontal"
      = [⟨0, 0, 0⟩, ⟨255, 255, 255⟩] ∧
    applyMirror [⟨0, 0, 0⟩, ⟨255, 255, 255⟩] 2 1 "diagonal"
      = [⟨0, 0, 0⟩, ⟨255, 255, 255⟩] :=
  ⟨rfl, rfl⟩

/-- C7: the spec claims the negative filter maps a 2×2 all-white buffer to
all-black.  Evaluating the code: `applyFilter` returns the all-white
buffer unchanged, and white is not black. -/
theorem C7_negative_identity :
    applyFilter [⟨255, 255, 255⟩, ⟨255, 255, 255⟩,
                 ⟨255, 255, 255⟩, ⟨255, 255, 255⟩] 2 2 "negative"
      = [⟨255, 255, 255⟩, ⟨255, 255, 255⟩, ⟨255, 255, 255⟩, ⟨255, 255, 255⟩] ∧
    (⟨255, 255, 255⟩ : Pixel) ≠ ⟨0, 0, 0⟩ :=
  ⟨rfl, by decide⟩

/-- C8: the spec claims serializing headers for the final buffer produces
exactly 54 bytes with recomputed FileSize and ImageSize.  Evaluating the
code at a 1×1 buffer: `writePixels` writes no bytes at all, so no 54-byte
header exists in its output. -/
theorem C8_writePixels_writes_nothing :
    writePixels hGood dGood [⟨1, 2, 3⟩] = Except.ok ([] : List Nat) ∧
    ([] : List Nat).length ≠ 54 :=
  ⟨rfl, by decide⟩

/-- Every branch of `main`'s option dispatch returns the pixels
unchanged. -/
theorem applyStep_id (w h : Int) (ps : List Pixel) (o : Opt) :
    applyStep w h ps o = ps := by
  unfold applyStep applyMirror applyFilter applyRotate applyCrop
  split_ifs <;> rfl

/-- C9: each transform function of main.go returns its input pixel slice
unchanged, and consequently `main`'s whole option loop is the identity on
the pixel data for every option list. -/
theorem C9_transforms_are_identity :
    (∀ ps w h m, applyMirror ps w h m = ps) ∧
    (∀ ps w h f, applyFilter ps w h f = ps) ∧
    (∀ ps w h a, applyRotate ps w h a = ps) ∧
    (∀ ps w h ox oy cw ch, applyCrop ps w h ox oy cw ch = ps) ∧
    (∀ w h opts ps, applyPipeline w h opts ps = ps) := by
  refine ⟨fun _ _ _ _ => rfl, fun _ _ _ _ => rfl, fun _ _ _ _ => rfl,
    fun _ _ _ _ _ _ _ => rfl, fun w h opts => ?_⟩
  induction opts with
  | nil => intro ps; rfl
  | cons o rest ih =>
    intro ps
    show applyPipeline w h rest (applyStep w h ps o) = ps
    rw [applyStep_id, ih]

/-- C10: `parseArgs` on the three-argument list ["apply", src, out] — an
apply invocation with no transform options — returns the usage error
rather than the pair of file names with an empty option list. -/
theorem C10_apply_requires_option (src out : String) :
    parseArgs ["apply", src, out]
      = Except.error
          "usage: ./bitmap apply [options] <source_file> <output_file>" := by
  rfl

end Bitmap
